import Mathlib

/-!
Verification of `bin/google_calendar_ooo_report.py`.

The script is a single linear pass: load or obtain a credential, query each
configured calendar for its next upcoming events, keep the out-of-office ones,
and print the resulting mapping.  We embed the credential branch (lines 22-39),
the per-calendar fetch-and-filter loop (lines 41-73) and the top-level
`except HttpError` handler (lines 80-81) as executable Lean definitions and
prove the specified properties about them.
-/

/-- An event as returned by the calendar API: a dictionary that may or may not
carry the `"eventType"` and `"summary"` keys.  The script only ever inspects
these two keys, so the other fields are irrelevant to the embedding.  A `none`
field models a missing key, whose lookup `event[...]` raises `KeyError`. -/
structure Event where
  eventType : Option String
  summary : Option String
deriving DecidableEq

/-- Character-list prefix test, auxiliary to substring containment. -/
def charsPrefix : List Char → List Char → Bool
  | [], _ => true
  | _ :: _, [] => false
  | a :: as, b :: bs => a == b && charsPrefix as bs

/-- Does `needle` occur as a contiguous run inside `hay`? -/
def charsSub : List Char → List Char → Bool
  | needle, [] => charsPrefix needle []
  | needle, b :: bs => charsPrefix needle (b :: bs) || charsSub needle bs

/-- Python string membership `needle in hay`: substring containment. -/
def pyIn (needle hay : String) : Bool := charsSub needle.toList hay.toList

/-- Python `str.lower()` on one character: the ASCII case map (uppercase
letters shift down by 32, everything else is unchanged). -/
def lowerChar (c : Char) : Char :=
  if 65 ≤ c.toNat && c.toNat ≤ 90 then Char.ofNat (c.toNat + 32) else c

/-- Python `str.lower()`: lowercase every character of the string. -/
def pyLower (s : String) : String := ⟨s.toList.map lowerChar⟩

/-- One pass of the generator
`any(keyword.lower() in event["summary"].lower() for keyword in settings()["keywords"])`
(line 70).  The generator body evaluates `event["summary"]` once per keyword,
so with no keywords the summary key is never read; with at least one keyword a
missing summary raises `KeyError` before any comparison. -/
def anyKeyword (e : Event) : List String → Except String Bool
  | [] => .ok false
  | k :: ks =>
    match e.summary with
    | none => .error "KeyError: summary"
    | some s => if pyIn (pyLower k) (pyLower s) then .ok true else anyKeyword e ks

/-- The filter condition of the list comprehension at lines 67-71:
`event["eventType"] == "outOfOffice" or any(keyword.lower() in event["summary"].lower() ...)`.
The `eventType` lookup always happens; the `or` short-circuits, so the keyword
scan runs only when the event type differs from `"outOfOffice"`. -/
def filterPred (keywords : List String) (e : Event) : Except String Bool :=
  match e.eventType with
  | none => .error "KeyError: eventType"
  | some et =>
    if et == "outOfOffice" then .ok true
    else anyKeyword e keywords

/-- The list comprehension at lines 67-71: keep the events whose filter
condition is true, propagating the first `KeyError` raised by a condition. -/
def filterEvents (keywords : List String) : List Event → Except String (List Event)
  | [] => .ok []
  | e :: es =>
    match filterPred keywords e with
    | .error msg => .error msg
    | .ok b =>
      match filterEvents keywords es with
      | .error msg => .error msg
      | .ok rest => .ok (if b then e :: rest else rest)

/-- When the summary key is present the keyword scan never fails and computes
exactly the disjunction of lowercased-substring tests. -/
theorem any_keyword_ok (e : Event) (su : String) (h : e.summary = some su) :
    ∀ keywords : List String,
      anyKeyword e keywords = .ok (keywords.any fun k => pyIn (pyLower k) (pyLower su))
  | [] => by simp [anyKeyword]
  | k :: ks => by
    rw [anyKeyword, h]
    cases hk : pyIn (pyLower k) (pyLower su) with
    | true => simp [hk]
    | false => simp [hk, any_keyword_ok e su h ks]

/-- C1: for every event carrying both keys, the filter predicate succeeds and
includes the event iff its `eventType` equals `"outOfOffice"` or its lowercased
summary contains some lowercased configured keyword. -/
theorem filter_pred_iff (keywords : List String) (e : Event) (et su : String)
    (h1 : e.eventType = some et) (h2 : e.summary = some su) :
    filterPred keywords e =
      .ok (et == "outOfOffice" || keywords.any fun k => pyIn (pyLower k) (pyLower su)) := by
  rw [filterPred, h1]
  cases het : et == "outOfOffice" with
  | true => simp [het]
  | false => simp [het, any_keyword_ok e su h2 keywords]

/-- Witness for C1 at the spec scenario: keywords `{"vacation"}`, summary
`"Team Vacation"`, event type `"default"` → included. -/
theorem filter_pred_iff_witness :
    filterPred ["vacation"] { eventType := some "default", summary := some "Team Vacation" } =
      .ok true := by
  have h := filter_pred_iff ["vacation"]
    { eventType := some "default", summary := some "Team Vacation" }
    "default" "Team Vacation" rfl rfl
  rw [h]
  rfl

/-- Every event kept by a successful filtering pass satisfies the predicate. -/
theorem filter_events_sound (keywords : List String) :
    ∀ l kept : List Event, filterEvents keywords l = Except.ok kept →
      ∀ e ∈ kept, filterPred keywords e = Except.ok true
  | [], kept, h => by
    rw [filterEvents] at h
    cases h
    intro e he
    cases he
  | a :: as, kept, h => by
    intro e he
    rw [filterEvents] at h
    cases hp : filterPred keywords a with
    | error m => rw [hp] at h; cases h
    | ok b =>
      rw [hp] at h
      cases hr : filterEvents keywords as with
      | error m => rw [hr] at h; cases h
      | ok rest =>
        rw [hr] at h
        simp only [Except.ok.injEq] at h
        subst h
        cases b with
        | false => exact filter_events_sound keywords as rest hr e he
        | true =>
          simp only [if_true] at he
          rcases List.mem_cons.mp he with rfl | he2
          · exact hp
          · exact filter_events_sound keywords as rest hr e he2

/-- A list all of whose members satisfy the predicate is kept unchanged. -/
theorem filter_events_fixed (keywords : List String) :
    ∀ l : List Event, (∀ e ∈ l, filterPred keywords e = Except.ok true) →
      filterEvents keywords l = Except.ok l
  | [], _ => rfl
  | a :: as, h => by
    have ha := h a (List.mem_cons_self a as)
    have has := filter_events_fixed keywords as fun e he => h e (List.mem_cons_of_mem a he)
    rw [filterEvents, ha, has]
    simp

/-- C9: filtering is idempotent — applying the comprehension to its own output
returns that output unchanged. -/
theorem filter_idempotent (keywords : List String) (l kept : List Event)
    (h : filterEvents keywords l = Except.ok kept) :
    filterEvents keywords kept = Except.ok kept :=
  filter_events_fixed keywords kept (filter_events_sound keywords l kept h)

/-- Witness for C9: filtering `[Team Vacation, Standup]` with keyword
`"vacation"` keeps only the first event, and refiltering that output is a
fixed point. -/
theorem filter_idempotent_witness :
    filterEvents ["vacation"] [{ eventType := some "default", summary := some "Team Vacation" }] =
      Except.ok [{ eventType := some "default", summary := some "Team Vacation" }] :=
  filter_idempotent ["vacation"]
    [{ eventType := some "default", summary := some "Team Vacation" },
     { eventType := some "default", summary := some "Standup" }]
    [{ eventType := some "default", summary := some "Team Vacation" }]
    (by rfl)

/-- Error carried out of the fetch loop.  `api` is an `HttpError` raised by a
calendar query (`.execute()` at line 59); `key` is a `KeyError` raised by a
field lookup inside the filtering comprehension.  Only the former is caught by
the `except HttpError` handler at line 80. -/
inductive RunError where
  | api (detail : String)
  | key (field : String)
deriving DecidableEq

/-- The `ooo_events` dictionary built by the loop: calendar identifier to kept
events, in insertion order. -/
abbrev Report := List (String × List Event)

/-- The body of the `try` block at lines 41-73: query each configured calendar
in order; an `HttpError` from a query, or a `KeyError` from filtering, aborts
the loop.  A calendar whose query returns no events is skipped (`continue` at
line 65); otherwise its filtered event list is stored under its identifier.
The `api` argument models `service.events().list(calendarId=...).execute()`
followed by `.get("items", [])`: it either returns the event list or raises an
`HttpError` with the given detail. -/
def fetchReport (api : String → Except String (List Event)) (keywords : List String) :
    List String → Except RunError Report
  | [] => .ok []
  | cal :: cals =>
    match api cal with
    | .error d => .error (.api d)
    | .ok events =>
      if events.isEmpty then fetchReport api keywords cals
      else
        match filterEvents keywords events with
        | .error f => .error (.key f)
        | .ok kept =>
          match fetchReport api keywords cals with
          | .error er => .error er
          | .ok rest => .ok ((cal, kept) :: rest)

/-- The calendars whose query is actually issued during the loop: every
calendar up to and including the first one whose iteration raises. -/
def queriedCals (api : String → Except String (List Event)) (keywords : List String) :
    List String → List String
  | [] => []
  | cal :: cals =>
    match api cal with
    | .error _ => [cal]
    | .ok events =>
      if events.isEmpty then cal :: queriedCals api keywords cals
      else
        match filterEvents keywords events with
        | .error _ => [cal]
        | .ok _ => cal :: queriedCals api keywords cals

/-- What one run of `main` observably does after authentication: print the
report (line 73), print `"An error occurred: ..."` for a caught `HttpError`
(line 81), or die on an uncaught exception. -/
inductive Outcome where
  | report (r : Report)
  | errorMessage (msg : String)
  | crash (exc : String)
deriving DecidableEq

/-- The `try`/`except HttpError` structure of `main` (lines 41-81): a normal
pass prints the report; an `HttpError` is caught and printed; a `KeyError`
from filtering is not an `HttpError` and propagates uncaught. -/
def mainOutcome (api : String → Except String (List Event)) (keywords : List String)
    (cals : List String) : Outcome :=
  match fetchReport api keywords cals with
  | .ok r => .report r
  | .error (.api d) => .errorMessage ("An error occurred: " ++ d)
  | .error (.key f) => .crash f

/-- Process exit status for each outcome: `main` returns normally both after
printing the report and after the caught-and-printed `HttpError` (the script
then falls off the end of `if __name__ == "__main__"`, exiting 0); only an
uncaught exception makes the interpreter exit non-zero. -/
def exitStatus : Outcome → Nat
  | .report _ => 0
  | .errorMessage _ => 0
  | .crash _ => 1

/-- C2 counterexample: a run whose only calendar query raises an API error
prints the error message but exits with status 0 — the `HttpError` is caught
at line 80 and `main` returns normally, so there is no non-zero exit. -/
theorem api_error_exit_zero_cex :
    mainOutcome (fun _ => Except.error "boom") [] ["primary"] =
        Outcome.errorMessage "An error occurred: boom" ∧
    exitStatus (mainOutcome (fun _ => Except.error "boom") [] ["primary"]) = 0 :=
  ⟨rfl, rfl⟩

/-- C2 (amended): a run in which a calendar query raises an API error prints
the error message and terminates normally with exit status 0 — the error is
caught, not propagated. -/
theorem api_error_caught (api : String → Except String (List Event))
    (keywords cals : List String) (d : String)
    (h : fetchReport api keywords cals = Except.error (RunError.api d)) :
    mainOutcome api keywords cals = Outcome.errorMessage ("An error occurred: " ++ d) ∧
    exitStatus (mainOutcome api keywords cals) = 0 := by
  rw [mainOutcome, h]
  exact ⟨rfl, rfl⟩

/-- Witness for (amended) C2 at a concrete failing run. -/
theorem api_error_caught_witness :
    mainOutcome (fun _ => Except.error "quota") ["vacation"] ["primary"] =
        Outcome.errorMessage ("An error occurred: " ++ "quota") ∧
    exitStatus (mainOutcome (fun _ => Except.error "quota") ["vacation"] ["primary"]) = 0 :=
  api_error_caught (fun _ => Except.error "quota") ["vacation"] ["primary"] "quota" rfl

/-- C10 counterexample: with an empty configured keyword set, an event whose
type is not `"outOfOffice"` and whose `"summary"` key is missing does NOT make
the lookup fail — `any` over an empty generator returns `False` without ever
evaluating `event["summary"]`, so the predicate succeeds and excludes the
event. -/
theorem missing_summary_no_fail_cex :
    filterPred [] { eventType := some "default", summary := none } = Except.ok false :=
  rfl

/-- C10 (amended): the predicate always reads `"eventType"` (missing it fails
with a `KeyError`); it reads `"summary"` only when the type is not
`"outOfOffice"` AND at least one keyword is configured (missing it then fails
with a `KeyError`); and when both keys are present it is total. -/
theorem filter_pred_totality (keywords : List String) (e : Event) :
    (e.eventType = none → filterPred keywords e = Except.error "KeyError: eventType") ∧
    (∀ et, e.eventType = some et → et ≠ "outOfOffice" → keywords ≠ [] → e.summary = none →
      filterPred keywords e = Except.error "KeyError: summary") ∧
    (∀ et su, e.eventType = some et → e.summary = some su →
      ∃ b, filterPred keywords e = Except.ok b) := by
  refine ⟨fun h => by rw [filterPred, h], ?_, ?_⟩
  · intro et h1 hne hkw h2
    rw [filterPred, h1]
    cases keywords with
    | nil => exact absurd rfl hkw
    | cons k ks => simp [hne, anyKeyword, h2]
  · intro et su h1 h2
    rw [filterPred, h1]
    cases het : et == "outOfOffice" with
    | true => exact ⟨true, by simp [het]⟩
    | false =>
      refine ⟨keywords.any fun k => pyIn (pyLower k) (pyLower su), ?_⟩
      simp [het, any_keyword_ok e su h2 keywords]

/-- Witness for (amended) C10: an event missing `"eventType"` fails even with
a keyword configured. -/
theorem filter_pred_totality_witness :
    filterPred ["vacation"] { eventType := none, summary := none } =
      Except.error "KeyError: eventType" :=
  (filter_pred_totality ["vacation"] { eventType := none, summary := none }).1 rfl

/-- Processing a clean prefix and then a failing calendar: only the prefix and
the failing calendar are queried, and the loop result is the API error. -/
theorem fetch_stops_at_error (api : String → Except String (List Event))
    (keywords : List String) :
    ∀ (pre post : List String) (bad d : String),
      (∀ c ∈ pre, ∃ evs kept,
        api c = Except.ok evs ∧ filterEvents keywords evs = Except.ok kept) →
      api bad = Except.error d →
      queriedCals api keywords (pre ++ bad :: post) = pre ++ [bad] ∧
      fetchReport api keywords (pre ++ bad :: post) = Except.error (RunError.api d)
  | [], post, bad, d, _, hbad => by
    constructor
    · simp [queriedCals, hbad]
    · simp [fetchReport, hbad]
  | c :: pre, post, bad, d, hpre, hbad => by
    obtain ⟨evs, kept, hc, hk⟩ := hpre c (List.mem_cons_self c pre)
    have ih := fetch_stops_at_error api keywords pre post bad d
      (fun x hx => hpre x (List.mem_cons_of_mem c hx)) hbad
    by_cases hemp : evs.isEmpty = true
    · constructor
      · simp only [List.cons_append]
        rw [queriedCals, hc]
        simp [hemp, ih.1]
      · simp only [List.cons_append]
        rw [fetchReport, hc]
        simp [hemp, ih.2]
    · constructor
      · simp only [List.cons_append]
        rw [queriedCals, hc]
        simp [hemp, hk, ih.1]
      · simp only [List.cons_append]
        rw [fetchReport, hc]
        simp [hemp, hk, ih.2]

/-- C3: when a calendar query raises an API error, the calendars after it in
the configured sequence are never queried, no report is produced, and the
printed message carries the underlying error detail. -/
theorem api_error_aborts_run (api : String → Except String (List Event))
    (keywords : List String) (pre post : List String) (bad d : String)
    (hpre : ∀ c ∈ pre, ∃ evs kept,
      api c = Except.ok evs ∧ filterEvents keywords evs = Except.ok kept)
    (hbad : api bad = Except.error d) :
    queriedCals api keywords (pre ++ bad :: post) = pre ++ [bad] ∧
    (∀ r, mainOutcome api keywords (pre ++ bad :: post) ≠ Outcome.report r) ∧
    mainOutcome api keywords (pre ++ bad :: post) =
      Outcome.errorMessage ("An error occurred: " ++ d) := by
  obtain ⟨hq, hf⟩ := fetch_stops_at_error api keywords pre post bad d hpre hbad
  refine ⟨hq, ?_, by simp [mainOutcome, hf]⟩
  intro r hr
  simp [mainOutcome, hf] at hr

/-- A concrete API for the C3 witness: the calendar `"bad"` raises, every
other calendar returns one out-of-office event. -/
def apiScenario : String → Except String (List Event) :=
  fun cal =>
    if cal == "bad" then Except.error "quota exceeded"
    else Except.ok [{ eventType := some "outOfOffice", summary := some "Away" }]

/-- Witness for C3: with calendars `["good", "bad", "later"]`, only the first
two are queried and the run ends in the printed API error. -/
theorem api_error_aborts_run_witness :
    queriedCals apiScenario ["vacation"] (["good"] ++ "bad" :: ["later"]) = ["good"] ++ ["bad"] ∧
    (∀ r, mainOutcome apiScenario ["vacation"] (["good"] ++ "bad" :: ["later"]) ≠
      Outcome.report r) ∧
    mainOutcome apiScenario ["vacation"] (["good"] ++ "bad" :: ["later"]) =
      Outcome.errorMessage ("An error occurred: " ++ "quota exceeded") :=
  api_error_aborts_run apiScenario ["vacation"] ["good"] ["later"] "bad" "quota exceeded"
    (by
      intro c hc
      rw [List.mem_singleton] at hc
      subst hc
      exact ⟨_, _, rfl, rfl⟩)
    rfl

/-- C4: a calendar identifier appears as a key of the report only when its API
query returned a non-empty event list — empty calendars are skipped by the
`continue` at line 65 before any key is ever assigned. -/
theorem report_key_needs_events (api : String → Except String (List Event))
    (keywords : List String) :
    ∀ (cals : List String) (r : Report) (cal : String) (l : List Event),
      fetchReport api keywords cals = Except.ok r → (cal, l) ∈ r →
      ∃ evs, api cal = Except.ok evs ∧ evs ≠ []
  | [], r, cal, l, h, hm => by
    rw [fetchReport] at h
    cases h
    cases hm
  | c :: cs, r, cal, l, h, hm => by
    rw [fetchReport] at h
    split at h
    · cases h
    next evs heq =>
      split at h
      · exact report_key_needs_events api keywords cs r cal l h hm
      next hne =>
        split at h
        · cases h
        next kept hfil =>
          split at h
          · cases h
          next rest hrec =>
            cases h
            rcases List.mem_cons.mp hm with hpair | hm2
            · simp only [Prod.mk.injEq] at hpair
              obtain ⟨rfl, rfl⟩ := hpair
              refine ⟨evs, heq, fun hnil => hne ?_⟩
              rw [hnil]
              rfl
            · exact report_key_needs_events api keywords cs rest cal l hrec hm2

/-- A concrete API for the C4 witness: every calendar returns one event. -/
def apiOne : String → Except String (List Event) :=
  fun _ => Except.ok [{ eventType := some "outOfOffice", summary := some "Away" }]

/-- Witness for C4 at a one-calendar run whose report holds that calendar. -/
theorem report_key_needs_events_witness :
    ∃ evs, apiOne "primary" = Except.ok evs ∧ evs ≠ [] :=
  report_key_needs_events apiOne ["vacation"] ["primary"]
    [("primary", [{ eventType := some "outOfOffice", summary := some "Away" }])]
    "primary" [{ eventType := some "outOfOffice", summary := some "Away" }]
    rfl (List.mem_singleton.mpr rfl)

/-- C5: a calendar whose query returned at least one event keeps its key even
when no event qualifies — the emptiness test at line 64 runs on the raw query
result, before filtering, so such a calendar maps to the empty list. -/
theorem no_qualifying_events_key_kept (api : String → Except String (List Event))
    (keywords : List String) :
    ∀ (cals : List String) (r : Report) (cal : String) (evs : List Event),
      cal ∈ cals → fetchReport api keywords cals = Except.ok r →
      api cal = Except.ok evs → evs ≠ [] → filterEvents keywords evs = Except.ok [] →
      (cal, []) ∈ r
  | [], _, cal, _, hmem, _, _, _, _ => absurd hmem (List.not_mem_nil cal)
  | c :: cs, r, cal, evs, hmem, h, hapi, hne, hfil => by
    rw [fetchReport] at h
    rcases List.mem_cons.mp hmem with rfl | hmem2
    · rw [hapi] at h
      have hemp : evs.isEmpty = false := by
        cases evs with
        | nil => exact absurd rfl hne
        | cons a as => rfl
      simp only [hemp, Bool.false_eq_true, if_false, hfil] at h
      split at h
      · cases h
      next rest hrec =>
        cases h
        exact List.mem_cons_self _ _
    · split at h
      · cases h
      next evs2 heq2 =>
        split at h
        · exact no_qualifying_events_key_kept api keywords cs r cal evs hmem2 h hapi hne hfil
        next hne2 =>
          split at h
          · cases h
          next kept2 hfil2 =>
            split at h
            · cases h
            next rest2 hrec2 =>
              cases h
              exact List.mem_cons_of_mem _
                (no_qualifying_events_key_kept api keywords cs rest2 cal evs hmem2 hrec2
                  hapi hne hfil)

/-- The credential bundle loaded from `store/token.json`.  Only the three
attributes inspected by the script are modelled: the access token, the expiry
flag and the refresh token. -/
structure Credential where
  token : Option String
  expired : Bool
  refresh_token : Option String
deriving DecidableEq

/-- The `valid` property of the external `google.oauth2.credentials`
object tested at line 29: a credential is valid when it carries an access
token and is not expired. -/
def Credential.valid (c : Credential) : Bool := c.token.isSome && !c.expired

/-- Observable effects of the credential branch at lines 22-39: the credential
`main` continues with, how many times `creds.refresh(...)` ran, how many times
the interactive `flow.run_local_server(...)` ran, and what (if anything) was
written to `store/token.json`. -/
structure AuthTrace where
  creds : Credential
  refreshCalls : Nat
  flowRuns : Nat
  tokenFileWrite : Option Credential
deriving DecidableEq

/-- The credential branch at lines 22-39.  `tokenFile` is the deserialized
content of `store/token.json` when the file exists (`none` models a missing
file, leaving `creds = None`); `refreshFn` models the in-place
`creds.refresh(Request())` call; `flowCreds` models the credential returned by
`flow.run_local_server(port=0)`.  Whenever the refresh-or-flow block runs, the
resulting credential is serialized back to `store/token.json` (lines 37-39). -/
def credentialFlow (tokenFile : Option Credential)
    (refreshFn : Credential → Credential) (flowCreds : Credential) : AuthTrace :=
  match tokenFile with
  | none =>
    { creds := flowCreds, refreshCalls := 0, flowRuns := 1, tokenFileWrite := some flowCreds }
  | some creds =>
    if !creds.valid then
      if creds.expired && creds.refresh_token.isSome then
        let c := refreshFn creds
        { creds := c, refreshCalls := 1, flowRuns := 0, tokenFileWrite := some c }
      else
        { creds := flowCreds, refreshCalls := 0, flowRuns := 1,
          tokenFileWrite := some flowCreds }
    else
      { creds := creds, refreshCalls := 0, flowRuns := 0, tokenFileWrite := none }

/-- C6: a cached, valid credential is used as-is — no refresh call, no
interactive flow, and no write to the token file. -/
theorem valid_token_untouched (c : Credential) (refreshFn : Credential → Credential)
    (flowCreds : Credential) (h : c.valid = true) :
    (credentialFlow (some c) refreshFn flowCreds).refreshCalls = 0 ∧
    (credentialFlow (some c) refreshFn flowCreds).flowRuns = 0 ∧
    (credentialFlow (some c) refreshFn flowCreds).tokenFileWrite = none ∧
    (credentialFlow (some c) refreshFn flowCreds).creds = c := by
  rw [credentialFlow, h]
  exact ⟨rfl, rfl, rfl, rfl⟩

/-- Witness for C6 at a fresh, unexpired cached token. -/
theorem valid_token_untouched_witness :
    (credentialFlow (some { token := some "tok", expired := false, refresh_token := none })
        id { token := some "new", expired := false, refresh_token := none }).refreshCalls = 0 ∧
    (credentialFlow (some { token := some "tok", expired := false, refresh_token := none })
        id { token := some "new", expired := false, refresh_token := none }).flowRuns = 0 ∧
    (credentialFlow (some { token := some "tok", expired := false, refresh_token := none })
        id { token := some "new", expired := false, refresh_token := none }).tokenFileWrite =
      none ∧
    (credentialFlow (some { token := some "tok", expired := false, refresh_token := none })
        id { token := some "new", expired := false, refresh_token := none }).creds =
      { token := some "tok", expired := false, refresh_token := none } :=
  valid_token_untouched { token := some "tok", expired := false, refresh_token := none }
    id { token := some "new", expired := false, refresh_token := none } rfl

/-- C7: a cached token that is expired and carries a refresh token triggers
exactly one refresh (and no interactive flow), and the refreshed credential is
written back to the token file. -/
theorem expired_token_refreshed (c : Credential) (refreshFn : Credential → Credential)
    (flowCreds : Credential) (hexp : c.expired = true) (href : c.refresh_token.isSome = true) :
    (credentialFlow (some c) refreshFn flowCreds).refreshCalls = 1 ∧
    (credentialFlow (some c) refreshFn flowCreds).flowRuns = 0 ∧
    (credentialFlow (some c) refreshFn flowCreds).tokenFileWrite = some (refreshFn c) ∧
    (credentialFlow (some c) refreshFn flowCreds).creds = refreshFn c := by
  have hval : c.valid = false := by
    rw [Credential.valid, hexp]
    simp
  rw [credentialFlow, hval, hexp, href]
  exact ⟨rfl, rfl, rfl, rfl⟩

/-- A concrete refresh action for the C7 witness: clear the expiry flag. -/
def refreshStub (c : Credential) : Credential := { c with expired := false }

/-- Witness for C7 at an expired cached token holding a refresh token. -/
theorem expired_token_refreshed_witness :
    (credentialFlow (some { token := some "old", expired := true, refresh_token := some "r" })
        refreshStub
        { token := some "new", expired := false, refresh_token := none }).refreshCalls = 1 ∧
    (credentialFlow (some { token := some "old", expired := true, refresh_token := some "r" })
        refreshStub
        { token := some "new", expired := false, refresh_token := none }).flowRuns = 0 ∧
    (credentialFlow (some { token := some "old", expired := true, refresh_token := some "r" })
        refreshStub
        { token := some "new", expired := false, refresh_token := none }).tokenFileWrite =
      some (refreshStub
        { token := some "old", expired := true, refresh_token := some "r" }) ∧
    (credentialFlow (some { token := some "old", expired := true, refresh_token := some "r" })
        refreshStub
        { token := some "new", expired := false, refresh_token := none }).creds =
      refreshStub
        { token := some "old", expired := true, refresh_token := some "r" } :=
  expired_token_refreshed { token := some "old", expired := true, refresh_token := some "r" }
    refreshStub
    { token := some "new", expired := false, refresh_token := none } rfl rfl

/-- C8: with no cached token file, the interactive flow runs exactly once, no
refresh call occurs, and its result is persisted to the token file. -/
theorem no_token_runs_flow (refreshFn : Credential → Credential) (flowCreds : Credential) :
    (credentialFlow none refreshFn flowCreds).flowRuns = 1 ∧
    (credentialFlow none refreshFn flowCreds).refreshCalls = 0 ∧
    (credentialFlow none refreshFn flowCreds).tokenFileWrite = some flowCreds ∧
    (credentialFlow none refreshFn flowCreds).creds = flowCreds :=
  ⟨rfl, rfl, rfl, rfl⟩

/-- A concrete API for the C5 witness: every calendar returns one plain
meeting that matches no keyword. -/
def apiNoMatch : String → Except String (List Event) :=
  fun _ => Except.ok [{ eventType := some "default", summary := some "Standup" }]

/-- Witness for C5: the only calendar returns one non-qualifying event, and
the run reports it under its key with the empty list. -/
theorem no_qualifying_events_key_kept_witness :
    ("primary", ([] : List Event)) ∈ [("primary", ([] : List Event))] :=
  no_qualifying_events_key_kept apiNoMatch ["vacation"] ["primary"]
    [("primary", [])] "primary" [{ eventType := some "default", summary := some "Standup" }]
    (List.mem_singleton.mpr rfl) rfl rfl (by simp) rfl
